import Mathlib

/-!
Shallow embedding of the rgbd_mocap marker-tracking core
(src/tracking/tracking_markers.py, src/tracking/test_tracking.py,
src/process_image/process_image.py, src/processing/process_handler.py,
src/camera/camera_converter.py) together with the collaborator value
types (`Position`, `Marker`, `find_closest_blob`) that the repository
imports but whose files are not part of the sources; those are modelled
from the specification and marked as such in their doc comments.

Coordinates are integers (blob centers and marker positions are integer
pixels in the source); Euclidean distances are compared squared, which
is order-equivalent, so every comparison made by the code is preserved.
-/

/-- Modelled from the spec: the `Position` value type of the `position`
module (not under src/): a 2D coordinate plus a visibility flag, with an
explicit no-estimate sentinel.  The sentinel is the literal empty tuple
in the source; it is the `empty` constructor here. -/
inductive Position where
  | empty : Position
  | pt (x y : Int) (visible : Bool) : Position
deriving DecidableEq, Repr

/-- Modelled from the spec: equality on positions ignores visibility;
two positions are equal iff both are the sentinel or both have the same
coordinates. -/
def posEq : Position → Position → Bool
  | Position.empty, Position.empty => true
  | Position.pt x y _, Position.pt a b _ => x == a && y == b
  | _, _ => false

/-- Visibility flag of a position (the sentinel is never queried by the
code; it reads as not visible here for totality). -/
def Position.visibility : Position → Bool
  | Position.empty => false
  | Position.pt _ _ v => v

/-- Coordinates of a position (the sentinel is never queried by the
code; it reads as the origin here for totality). -/
def Position.posn : Position → Int × Int
  | Position.empty => (0, 0)
  | Position.pt x y _ => (x, y)

/-- Modelled from the spec: assignment to the `position` attribute of a
`Position` keeps the visibility flag.  The code only performs it on
non-sentinel positions; the sentinel is returned unchanged for
totality. -/
def Position.setPos : Position → Int × Int → Position
  | Position.empty, _ => Position.empty
  | Position.pt _ _ v, q => Position.pt q.1 q.2 v

/-- Squared Euclidean distance between two integer points. -/
def dist2 (a b : Int × Int) : Int :=
  (a.1 - b.1) * (a.1 - b.1) + (a.2 - b.2) * (a.2 - b.2)

/-- Modelled from the spec: `find_closest_blob` of `rgbd_mocap.utils`
(not under src/): return the blob minimizing the Euclidean distance to
the anchor, ties broken by blob list order, and report it only when it
lies within radius `delta`; `none` when no blob qualifies.  Distances
are compared squared. -/
def find_closest_blob (anchor : Int × Int) (blobs : List (Int × Int)) (delta : Int) :
    Option (Int × Int) :=
  match blobs.foldl (fun best b =>
      match best with
      | none => some b
      | some c => if dist2 anchor b < dist2 anchor c then some b else some c) none with
  | none => none
  | some c => if dist2 anchor c ≤ delta * delta then some c else none

/-- Modelled from the spec: a `Marker` of `marker_class` (not under
src/): stored 2D position and static flag.  The Kalman filter internals
are an excluded collaborator; its state is abstracted by `kalmanPred`,
the prediction `predict_from_kalman` returns this tick, and
`corrections`, the log of measurements fed to `correct_from_kalman`
(so the filter state is unchanged iff the log is unchanged). -/
structure Marker where
  pos : Int × Int
  is_static : Bool
  kalmanPred : Int × Int
  corrections : List (Int × Int)
deriving DecidableEq, Repr

instance : Inhabited Marker := ⟨⟨(0, 0), false, (0, 0), []⟩⟩

/-- Modelled from the spec: the Kalman prediction consumed by the
Kalman-based estimator; the filter math is an external collaborator. -/
def Marker.predict_from_kalman (m : Marker) : Int × Int :=
  m.kalmanPred

/-- Modelled from the spec: the Kalman correct step; the measurement is
appended to the abstract filter-state log. -/
def Marker.correct_from_kalman (m : Marker) (meas : Int × Int) : Marker :=
  { m with corrections := m.corrections ++ [meas] }

/-- Frame dimensions, the only part of `Frames` the tracker reads
(`frame.width`, `frame.height` in `check_bounds`). -/
structure Frames where
  width : Int
  height : Int
deriving DecidableEq, Repr

/-- Modelled from the spec: `Position.check_bounds(max_x, max_y)` clamps
x into `[0, max_x]` and y into `[0, max_y]` independently. -/
def Position.check_bounds : Position → Int → Int → Position
  | Position.empty, _, _ => Position.empty
  | Position.pt x y v, mx, my => Position.pt (min (max x 0) mx) (min (max y 0) my) v

/-- Modelled from the spec: `Position.distance_from_marker`, the
displacement of a merged position from a marker's stored (pre-tick)
position; squared here, order-equivalent to the Euclidean distance the
source compares. -/
def Position.distance_from_marker (p : Position) (m : Marker) : Int :=
  dist2 p.posn m.pos

/-- State of `Tracker` (src/tracking/tracking_markers.py).  The optical
flow adapter is an external collaborator: `optical_flow` holds, when the
estimator is enabled, this tick's per-marker flow results
`(estimation, status, error)` already updated by
`get_optical_flow_pos`. -/
structure Tracker where
  markers : List Marker
  naive : Bool
  optical_flow : Option (List ((Int × Int) × Int × Int))
  kalman : Bool
  delta : Int
  blobs : List (Int × Int)
  positions : List Position
  estimated_positions : List (Option (List Position))
deriving Repr

/-- `Tracker.__init__`: store the marker set and strategy flags, start
with no blobs, empty positions and a `None` diagnostics entry per
marker; `DELTA` defaults to 8. -/
def Tracker.init (markers : List Marker) (naive : Bool)
    (optical_flow : Option (List ((Int × Int) × Int × Int))) (kalman : Bool) : Tracker :=
  { markers := markers
    naive := naive
    optical_flow := optical_flow
    kalman := kalman
    delta := 8
    blobs := []
    positions := []
    estimated_positions := List.replicate markers.length none }

/-- `Tracker._get_blob_near_position`: append the anchor as a
non-visible diagnostics entry, then, when a blob lies within `DELTA` of
the anchor, append that blob as a visible entry. -/
def Tracker._get_blob_near_position (t : Tracker) (position : Int × Int) (index : Nat) :
    Tracker :=
  let cur := (t.estimated_positions.getD index none).getD [] ++
    [Position.pt position.1 position.2 false]
  let cur2 :=
    match find_closest_blob position t.blobs t.delta with
    | some b => cur ++ [Position.pt b.1 b.2 true]
    | none => cur
  { t with estimated_positions := t.estimated_positions.set index (some cur2) }

/-- `Tracker._track_marker`: static markers return immediately (the
returned stored position is discarded by the caller, so the state is
unchanged); otherwise the diagnostics entry is reset and each enabled
estimator (naive, optical flow when its status is 1, Kalman) contributes
through `_get_blob_near_position`. -/
def Tracker._track_marker (t : Tracker) (im : Nat × Marker) : Tracker :=
  let index := im.1
  let marker := im.2
  if marker.is_static then t
  else
    let t := { t with estimated_positions := t.estimated_positions.set index (some []) }
    let t := if t.naive then t._get_blob_near_position marker.pos index else t
    let t :=
      match t.optical_flow with
      | some flow =>
          let fr := flow.getD index ((0, 0), 0, 0)
          if fr.2.1 = 1 then t._get_blob_near_position fr.1 index else t
      | none => t
    if t.kalman then t._get_blob_near_position marker.predict_from_kalman index else t

/-- `Tracker._merge_positions`: `None` or an empty candidate list gives
the sentinel; otherwise sum the coordinates of the visible candidates
(the source accumulates elementwise) and floor-divide by their count;
zero visible candidates give the sentinel. -/
def Tracker._merge_positions : Option (List Position) → Position
  | none => Position.empty
  | some positions =>
    if positions.isEmpty then Position.empty
    else
      let acc := positions.foldl
        (fun (acc : (Int × Int) × Nat) position =>
          if position.visibility then
            ((acc.1.1 + position.posn.1, acc.1.2 + position.posn.2), acc.2 + 1)
          else acc)
        ((0, 0), 0)
      if acc.2 = 0 then Position.empty
      else Position.pt (Int.fdiv acc.1.1 acc.2) (Int.fdiv acc.1.2 acc.2) true

/-- `Tracker.merge_positions`: rebuild `positions` by merging every
diagnostics entry. -/
def Tracker.merge_positions (t : Tracker) : Tracker :=
  { t with positions := t.estimated_positions.map Tracker._merge_positions }

/-- `Tracker._correct_overlapping`: compare the displacements of the two
contested merged positions from their own markers' stored positions; the
strictly closer marker keeps the position and the other is reverted to
its stored position; on `dist_i < dist_j` marker `j` is reverted,
otherwise (including ties) marker `i` is. -/
def Tracker._correct_overlapping (t : Tracker) (i j : Nat) : Tracker :=
  let dist_i := (t.positions.getD i Position.empty).distance_from_marker
    (t.markers.getD i default)
  let dist_j := (t.positions.getD j Position.empty).distance_from_marker
    (t.markers.getD j default)
  if dist_i < dist_j then
    let q := (t.positions.getD j Position.empty).setPos (t.markers.getD j default).pos
    { t with positions := t.positions.set j q }
  else
    let q := (t.positions.getD i Position.empty).setPos (t.markers.getD i default).pos
    { t with positions := t.positions.set i q }

/-- `Tracker.check_tracking`: for every pair `i < j` whose merged
positions are equal and non-empty, run `_correct_overlapping`; the pairs
are visited in loop order over the positions as they are being
mutated. -/
def Tracker.check_tracking (t : Tracker) : Tracker :=
  let nb_pos := t.positions.length
  (List.range nb_pos).foldl (fun t i =>
    (List.range' (i + 1) (nb_pos - (i + 1))).foldl (fun t j =>
      if posEq (t.positions.getD i Position.empty) (t.positions.getD j Position.empty)
         && !posEq (t.positions.getD i Position.empty) Position.empty
      then t._correct_overlapping i j else t) t) t

/-- `Tracker.check_bounds`: clamp every non-empty position into the
frame, `[0, width-1] x [0, height-1]`. -/
def Tracker.check_bounds (t : Tracker) (frame : Frames) : Tracker :=
  let max_x := frame.width - 1
  let max_y := frame.height - 1
  { t with positions := t.positions.map (fun p =>
      if posEq p Position.empty then p else p.check_bounds max_x max_y) }

/-- The final loop of `Tracker.track`: walk the markers with a running
index and feed every non-empty final position to that marker's Kalman
correct step; this loop is not guarded by the `kalman` strategy flag. -/
def kalmanPass (ps : List Position) : List Marker → Nat → List Marker
  | [], _ => []
  | m :: ms, i =>
      (if posEq (ps.getD i Position.empty) Position.empty then m
       else m.correct_from_kalman (ps.getD i Position.empty).posn) :: kalmanPass ps ms (i + 1)

/-- `Tracker.track`: store the blobs, run `_track_marker` over the
enumerated markers, merge, resolve overlaps, clamp to the frame, then
correct every marker with a non-empty final position from Kalman.  The
returned pair of the source is the `positions` and `estimated_positions`
fields of the resulting state. -/
def Tracker.track (t : Tracker) (frame : Frames) (blobs : List (Int × Int)) : Tracker :=
  let t := { t with blobs := blobs }
  let t := t.markers.enum.foldl Tracker._track_marker t
  let t := t.merge_positions
  let t := t.check_tracking
  let t := t.check_bounds frame
  { t with markers := kalmanPass t.positions t.markers 0 }

/-- `set_marker_pos` (src/tracking/test_tracking.py): assert that the
marker count matches the position count — the assertion fires before any
marker is touched — then write every non-empty position back into its
marker's stored position. -/
def set_marker_pos (marker_set : List Marker) (positions : List Position) :
    Except String (List Marker) :=
  if marker_set.length = positions.length then
    Except.ok (List.zipWith
      (fun m p => if posEq p Position.empty then m else { m with pos := p.posn })
      marker_set positions)
  else Except.error "AssertionError: marker count differs from position count"

/-- Supervisor-side state of `ProcessImage`
(src/process_image/process_image.py): the running image index, the
published shared frame (abstracted as the identifiers of the color and
depth images currently held), and the number of tracking dispatches
performed so far.  A dispatch runs the whole per-crop tracking pass,
including the marker write-back, synchronously. -/
structure PIState where
  index : Int
  frames : Nat × Nat
  dispatches : Nat
deriving DecidableEq, Repr

/-- `ImageProcessingHandler._process_function`: run blob extraction,
tracking and `set_marker_pos` for every crop against the shared frame.
Its internals act on the `Tracker` model above; at this level it is
abstracted as one recorded dispatch. -/
def ImageProcessingHandler._process_function (s : PIState) : PIState :=
  { s with dispatches := s.dispatches + 1 }

/-- `ImageProcessingHandler.send_process`: runs `_process_function`
synchronously; the order argument is ignored by the source. -/
def ImageProcessingHandler.send_process (_order : Nat) (s : PIState) : PIState :=
  ImageProcessingHandler._process_function s

/-- `ImageProcessingHandler.receive_process`: returns immediately. -/
def ImageProcessingHandler.receive_process (s : PIState) : PIState := s

/-- `ImageProcessingHandler.end_process`: returns immediately. -/
def ImageProcessingHandler.end_process (s : PIState) : PIState := s

/-- `ImageProcessingHandler.send_and_receive_process`: `send_process`
followed by `receive_process`. -/
def ImageProcessingHandler.send_and_receive_process (order : Nat) (s : PIState) : PIState :=
  ImageProcessingHandler.receive_process (ImageProcessingHandler.send_process order s)

/-- `ProcessHandler._process_function`
(src/processing/process_handler.py): same synchronous per-crop tracking
pass as the image handler, displayed through the inherited
`show_image`. -/
def ProcessHandler._process_function (s : PIState) : PIState :=
  { s with dispatches := s.dispatches + 1 }

/-- `ProcessHandler.send_process`: runs `_process_function`
synchronously; the order argument is ignored. -/
def ProcessHandler.send_process (_order : Nat) (s : PIState) : PIState :=
  ProcessHandler._process_function s

/-- `ProcessHandler.send_and_receive_process`: calls `send_process`
only. -/
def ProcessHandler.send_and_receive_process (order : Nat) (s : PIState) : PIState :=
  ProcessHandler.send_process order s

/-- `ProcessImage._update_img`: reject a missing image pair, otherwise
publish it into the shared frame. -/
def ProcessImage._update_img (s : PIState) (cd : Option (Nat × Nat)) : Bool × PIState :=
  match cd with
  | none => (false, s)
  | some cd => (true, { s with frames := cd })

/-- `ProcessImage._process_after_loading`: load the current index first;
on failure return without dispatching, otherwise publish and run the
synchronous dispatch.  `load_img` is the loader collaborator: `none`
models a failed `cv2.imread`. -/
def ProcessImage._process_after_loading (load_img : Int → Option (Nat × Nat))
    (s : PIState) : Bool × PIState :=
  let r := ProcessImage._update_img s (load_img s.index)
  if r.1 then (true, ImageProcessingHandler.send_and_receive_process 1 r.2) else (false, r.2)

/-- `ProcessImage._process_while_loading`: dispatch the processing of
the current image first, then load the next frame, wait for the
processing, and publish the loaded frame only when the load
succeeded. -/
def ProcessImage._process_while_loading (load_img : Int → Option (Nat × Nat))
    (s : PIState) : Bool × PIState :=
  let s := ImageProcessingHandler.send_process 1 s
  let cd := load_img s.index
  let s := ImageProcessingHandler.receive_process s
  ProcessImage._update_img s cd

/-- One iteration of the `ProcessImage.process` loop: advance the index
then run `_process_while_loading`; a `false` result makes the loop
continue with the next index. -/
def ProcessImage.process_step (load_img : Int → Option (Nat × Nat))
    (s : PIState) : Bool × PIState :=
  ProcessImage._process_while_loading load_img { s with index := s.index + 1 }

/-- The two `RgbdImages` accessors that the documentation of
`CameraConverter.get_markers_pos_in_meter` names as the valid choices
for its `method` argument, plus any other callable. -/
inductive RgbdMethod where
  | get_global_markers_pos : RgbdMethod
  | get_merged_global_markers_pos : RgbdMethod
  | other (id : Nat) : RgbdMethod
deriving DecidableEq, Repr

/-- `CameraConverter.get_markers_pos_in_meter`
(src/camera/camera_converter.py).  Pixel-position payloads are
abstracted as identifiers; `call` models invoking the `method` callable,
returning `(positions, names, occlusions, reliability)`, and `deproject`
models `_compute_markers` with `rs2_deproject_pixel_to_point`.  The
source raises `ValueError` when both arguments are `None`, and also —
through an inverted membership test — whenever `method` is one of the
two accessors its documentation calls valid. -/
def CameraConverter.get_markers_pos_in_meter (marker_pos_in_pixel : Option Nat)
    (method : Option RgbdMethod) (call : RgbdMethod → Nat × Nat × Nat × Int)
    (deproject : Nat → Nat) : Except String (Nat × Option Nat × Option Nat × Int) :=
  if marker_pos_in_pixel = none ∧ method = none then
    Except.error "Cannot get markers position in meters: arguments are None"
  else if method ≠ none ∧ (method = some RgbdMethod.get_global_markers_pos ∨
      method = some RgbdMethod.get_merged_global_markers_pos) then
    Except.error "Cannot get markers position in meters: method is not valid"
  else
    match marker_pos_in_pixel, method with
    | none, none =>
        Except.error "Cannot get markers position in meters: arguments are None"
    | none, some m =>
        let r := call m
        Except.ok (deproject r.1, some r.2.1, some r.2.2.1, r.2.2.2)
    | some px, none => Except.ok (deproject px, none, none, 0)
    | some px, some m =>
        let r := call m
        Except.ok (deproject px, some r.2.1, some r.2.2.1, r.2.2.2)

/-! Helper lemmas: which fields of the tracker state each phase of
`Tracker.track` can change, and how lengths are preserved. -/

theorem posEq_empty_iff (p : Position) : posEq p Position.empty = true ↔ p = Position.empty := by
  cases p <;> simp [posEq]

theorem gbnp_markers (t : Tracker) (p : Int × Int) (i : Nat) :
    (t._get_blob_near_position p i).markers = t.markers := rfl

theorem gbnp_positions (t : Tracker) (p : Int × Int) (i : Nat) :
    (t._get_blob_near_position p i).positions = t.positions := rfl

theorem gbnp_est_length (t : Tracker) (p : Int × Int) (i : Nat) :
    (t._get_blob_near_position p i).estimated_positions.length =
      t.estimated_positions.length := by
  simp [Tracker._get_blob_near_position]

/-- Fields of the tracker state that the candidate-generation phase
leaves untouched, together with the preserved diagnostics length. -/
def Shape2 (t t' : Tracker) : Prop :=
  t'.markers = t.markers ∧ t'.positions = t.positions ∧
    t'.estimated_positions.length = t.estimated_positions.length

theorem shape2_refl (t : Tracker) : Shape2 t t := ⟨rfl, rfl, rfl⟩

theorem shape2_gbnp_of {t x : Tracker} (p : Int × Int) (i : Nat) (h : Shape2 t x) :
    Shape2 t (x._get_blob_near_position p i) := by
  obtain ⟨h1, h2, h3⟩ := h
  exact ⟨h1, h2, (gbnp_est_length x p i).trans h3⟩

theorem shape2_set_of {t x : Tracker} (i : Nat) (v : Option (List Position)) (h : Shape2 t x) :
    Shape2 t { x with estimated_positions := x.estimated_positions.set i v } := by
  obtain ⟨h1, h2, h3⟩ := h
  refine ⟨h1, h2, ?_⟩
  simpa using h3

theorem shape2_track_marker (t : Tracker) (im : Nat × Marker) :
    Shape2 t (t._track_marker im) := by
  rw [Tracker._track_marker]
  split
  · exact shape2_refl t
  · dsimp only
    repeat' split
    all_goals
      repeat' first
        | exact shape2_refl t
        | apply shape2_gbnp_of
        | apply shape2_set_of

theorem shape2_trans {a b c : Tracker} (h1 : Shape2 a b) (h2 : Shape2 b c) : Shape2 a c :=
  ⟨h2.1.trans h1.1, h2.2.1.trans h1.2.1, h2.2.2.trans h1.2.2⟩

theorem shape2_foldl_track_marker (l : List (Nat × Marker)) (t : Tracker) :
    Shape2 t (l.foldl Tracker._track_marker t) := by
  induction l generalizing t with
  | nil => exact shape2_refl t
  | cons a l ih =>
      exact shape2_trans (shape2_track_marker t a) (ih (t._track_marker a))

theorem merge_positions_markers (t : Tracker) : t.merge_positions.markers = t.markers := rfl

theorem merge_positions_est (t : Tracker) :
    t.merge_positions.estimated_positions = t.estimated_positions := rfl

theorem merge_positions_len (t : Tracker) :
    t.merge_positions.positions.length = t.estimated_positions.length := by
  simp [Tracker.merge_positions]

/-- Fields of the tracker state that overlap resolution and the bounds
clamp leave untouched, together with the preserved positions length. -/
def Shape4 (t t' : Tracker) : Prop :=
  t'.markers = t.markers ∧ t'.estimated_positions = t.estimated_positions ∧
    t'.positions.length = t.positions.length

theorem shape4_refl (t : Tracker) : Shape4 t t := ⟨rfl, rfl, rfl⟩

theorem shape4_trans {a b c : Tracker} (h1 : Shape4 a b) (h2 : Shape4 b c) : Shape4 a c :=
  ⟨h2.1.trans h1.1, h2.2.1.trans h1.2.1, h2.2.2.trans h1.2.2⟩

theorem shape4_correct_overlapping (t : Tracker) (i j : Nat) :
    Shape4 t (t._correct_overlapping i j) := by
  simp only [Tracker._correct_overlapping]
  split <;> exact ⟨rfl, rfl, by simp⟩

theorem shape4_inner_fold (i : Nat) (l : List Nat) (t : Tracker) :
    Shape4 t (l.foldl (fun t j =>
      if posEq (t.positions.getD i Position.empty) (t.positions.getD j Position.empty)
         && !posEq (t.positions.getD i Position.empty) Position.empty
      then t._correct_overlapping i j else t) t) := by
  induction l generalizing t with
  | nil => exact shape4_refl t
  | cons j rest ih =>
      rw [List.foldl_cons]
      refine shape4_trans ?_ (ih _)
      split
      · exact shape4_correct_overlapping t i j
      · exact shape4_refl t

theorem shape4_outer_fold (n : Nat) (l : List Nat) (t : Tracker) :
    Shape4 t (l.foldl (fun t i =>
      (List.range' (i + 1) (n - (i + 1))).foldl (fun t j =>
        if posEq (t.positions.getD i Position.empty) (t.positions.getD j Position.empty)
           && !posEq (t.positions.getD i Position.empty) Position.empty
        then t._correct_overlapping i j else t) t) t) := by
  induction l generalizing t with
  | nil => exact shape4_refl t
  | cons i rest ih =>
      rw [List.foldl_cons]
      exact shape4_trans (shape4_inner_fold i _ t) (ih _)

theorem shape4_check_tracking (t : Tracker) : Shape4 t t.check_tracking := by
  rw [Tracker.check_tracking]
  exact shape4_outer_fold t.positions.length (List.range t.positions.length) t

theorem shape4_check_bounds (t : Tracker) (frame : Frames) :
    Shape4 t (t.check_bounds frame) := by
  refine ⟨rfl, rfl, ?_⟩
  simp [Tracker.check_bounds]

theorem kalmanPass_length (ps : List Position) (ms : List Marker) (i : Nat) :
    (kalmanPass ps ms i).length = ms.length := by
  induction ms generalizing i with
  | nil => rfl
  | cons m ms ih => simp [kalmanPass, ih]

theorem kalmanPass_getD (ps : List Position) (ms : List Marker) (k j : Nat)
    (hj : j < ms.length) :
    (kalmanPass ps ms k).getD j default =
      (if posEq (ps.getD (k + j) Position.empty) Position.empty then ms.getD j default
       else (ms.getD j default).correct_from_kalman (ps.getD (k + j) Position.empty).posn) := by
  induction ms generalizing k j with
  | nil => simp at hj
  | cons m ms ih =>
      cases j with
      | zero => simp [kalmanPass]
      | succ j =>
          have hj' : j < ms.length := by simpa using hj
          have := ih (k + 1) j hj'
          simp only [kalmanPass, List.getD_cons_succ]
          rw [this]
          have harith : k + 1 + j = k + (j + 1) := by omega
          rw [harith]

/-- Decomposition of `Tracker.track` into its phases. -/
def Tracker.trackPre (t : Tracker) (frame : Frames) (blobs : List (Int × Int)) : Tracker :=
  let t := { t with blobs := blobs }
  let t := t.markers.enum.foldl Tracker._track_marker t
  let t := t.merge_positions
  let t := t.check_tracking
  t.check_bounds frame

theorem track_eq_pre (t : Tracker) (frame : Frames) (blobs : List (Int × Int)) :
    t.track frame blobs =
      { t.trackPre frame blobs with
          markers := kalmanPass (t.trackPre frame blobs).positions
            (t.trackPre frame blobs).markers 0 } := rfl

theorem trackPre_markers (t : Tracker) (frame : Frames) (blobs : List (Int × Int)) :
    (t.trackPre frame blobs).markers = t.markers := by
  rw [Tracker.trackPre]
  dsimp only
  have h2 := shape2_foldl_track_marker ({ t with blobs := blobs }).markers.enum
    { t with blobs := blobs }
  have h4 := shape4_check_tracking
    (({ t with blobs := blobs }).markers.enum.foldl Tracker._track_marker
      { t with blobs := blobs }).merge_positions
  have h5 := shape4_check_bounds
    (({ t with blobs := blobs }).markers.enum.foldl Tracker._track_marker
      { t with blobs := blobs }).merge_positions.check_tracking frame
  rw [h5.1, h4.1, merge_positions_markers, h2.1]

theorem trackPre_est (t : Tracker) (frame : Frames) (blobs : List (Int × Int)) :
    (t.trackPre frame blobs).estimated_positions.length = t.estimated_positions.length := by
  rw [Tracker.trackPre]
  dsimp only
  have h2 := shape2_foldl_track_marker ({ t with blobs := blobs }).markers.enum
    { t with blobs := blobs }
  have h4 := shape4_check_tracking
    (({ t with blobs := blobs }).markers.enum.foldl Tracker._track_marker
      { t with blobs := blobs }).merge_positions
  have h5 := shape4_check_bounds
    (({ t with blobs := blobs }).markers.enum.foldl Tracker._track_marker
      { t with blobs := blobs }).merge_positions.check_tracking frame
  rw [h5.2.1, h4.2.1, merge_positions_est]
  exact h2.2.2

theorem trackPre_pos_length (t : Tracker) (frame : Frames) (blobs : List (Int × Int)) :
    (t.trackPre frame blobs).positions.length = t.estimated_positions.length := by
  rw [Tracker.trackPre]
  dsimp only
  have h2 := shape2_foldl_track_marker ({ t with blobs := blobs }).markers.enum
    { t with blobs := blobs }
  have h4 := shape4_check_tracking
    (({ t with blobs := blobs }).markers.enum.foldl Tracker._track_marker
      { t with blobs := blobs }).merge_positions
  have h5 := shape4_check_bounds
    (({ t with blobs := blobs }).markers.enum.foldl Tracker._track_marker
      { t with blobs := blobs }).merge_positions.check_tracking frame
  rw [h5.2.2, h4.2.2, merge_positions_len]
  exact h2.2.2

/-! Concrete fixtures used by the claim theorems and witnesses. -/

/-- A static marker stored at (5, 5). -/
def staticMarker : Marker :=
  { pos := (5, 5), is_static := true, kalmanPred := (5, 5), corrections := [] }

/-- A non-static marker stored at (10, 10). -/
def marker10 : Marker :=
  { pos := (10, 10), is_static := false, kalmanPred := (0, 0), corrections := [] }

/-- C1: for a tracker holding one static marker stored at (5, 5), with
every estimator enabled, the position `Tracker.track` returns for that
marker is the Empty sentinel — not the stored position — for every frame
and every blob list, and the marker's diagnostics entry is left at
`None` rather than an empty list; the marker itself (its Kalman state
included) is untouched.  This documents the divergence of the code from
the claim: `_track_marker` returns the stored position for static
markers, but `track` discards that return value and merges the `None`
diagnostics entry into the sentinel. -/
theorem C1_static_marker_divergence (frame : Frames) (blobs : List (Int × Int)) :
    ((Tracker.init [staticMarker] true none true).track frame blobs).positions =
      [Position.empty] ∧
    ((Tracker.init [staticMarker] true none true).track frame blobs).estimated_positions =
      [none] ∧
    ((Tracker.init [staticMarker] true none true).track frame blobs).markers =
      [staticMarker] :=
  ⟨rfl, rfl, rfl⟩

/-- C3: whenever the diagnostics list is index-aligned with the marker
set (as `Tracker.__init__` establishes), a call to `Tracker.track`
returns `positions` and `estimated_positions` of length exactly the
number of markers, and keeps the marker count itself. -/
theorem C3_track_output_lengths (t : Tracker) (frame : Frames) (blobs : List (Int × Int))
    (h : t.estimated_positions.length = t.markers.length) :
    (t.track frame blobs).positions.length = t.markers.length ∧
    (t.track frame blobs).estimated_positions.length = t.markers.length ∧
    (t.track frame blobs).markers.length = t.markers.length := by
  refine ⟨?_, ?_, ?_⟩
  · exact (trackPre_pos_length t frame blobs).trans h
  · exact (trackPre_est t frame blobs).trans h
  · exact (kalmanPass_length _ _ 0).trans
      (congrArg List.length (trackPre_markers t frame blobs))

/-- Witness for C3 at a concrete two-marker tracker. -/
theorem C3_track_output_lengths_witness :
    ((Tracker.init [staticMarker, marker10] true none true).estimated_positions.length =
      (Tracker.init [staticMarker, marker10] true none true).markers.length) ∧
    (((Tracker.init [staticMarker, marker10] true none true).track ⟨100, 100⟩
        [(1, 1)]).positions.length =
      (Tracker.init [staticMarker, marker10] true none true).markers.length ∧
     ((Tracker.init [staticMarker, marker10] true none true).track ⟨100, 100⟩
        [(1, 1)]).estimated_positions.length =
      (Tracker.init [staticMarker, marker10] true none true).markers.length ∧
     ((Tracker.init [staticMarker, marker10] true none true).track ⟨100, 100⟩
        [(1, 1)]).markers.length =
      (Tracker.init [staticMarker, marker10] true none true).markers.length) :=
  ⟨by decide, C3_track_output_lengths _ ⟨100, 100⟩ [(1, 1)] (by decide)⟩

theorem merge_foldl_eq (ps : List Position) (a b : Int) (k : Nat) :
    ps.foldl (fun (acc : (Int × Int) × Nat) position =>
        if position.visibility then
          ((acc.1.1 + position.posn.1, acc.1.2 + position.posn.2), acc.2 + 1)
        else acc) ((a, b), k) =
      ((a + ((ps.filter Position.visibility).map (fun p => p.posn.1)).sum,
        b + ((ps.filter Position.visibility).map (fun p => p.posn.2)).sum),
        k + (ps.filter Position.visibility).length) := by
  induction ps generalizing a b k with
  | nil => simp
  | cons p ps ih =>
      by_cases hv : p.visibility = true
      · rw [List.foldl_cons, if_pos hv, ih, List.filter_cons, if_pos hv]
        simp only [List.map_cons, List.sum_cons, List.length_cons, Prod.ext_iff]
        exact ⟨⟨by ring, by ring⟩, by omega⟩
      · rw [List.foldl_cons, if_neg hv, ih, List.filter_cons, if_neg hv]

/-- C4: `_merge_positions` returns the coordinate-wise (floor) average
of exactly the visible candidates, marked visible, the sentinel when no
candidate is visible, and in particular returns a single visible
candidate unchanged. -/
theorem C4_merge_positions_spec (ps : List Position) (x y : Int) :
    (Tracker._merge_positions (some ps) =
      (if (ps.filter Position.visibility).length = 0 then Position.empty
       else Position.pt
         (Int.fdiv ((ps.filter Position.visibility).map (fun p => p.posn.1)).sum
           ((ps.filter Position.visibility).length : Int))
         (Int.fdiv ((ps.filter Position.visibility).map (fun p => p.posn.2)).sum
           ((ps.filter Position.visibility).length : Int)) true)) ∧
    Tracker._merge_positions (some [Position.pt x y true]) = Position.pt x y true := by
  constructor
  · rw [Tracker._merge_positions]
    by_cases hps : ps = []
    · subst hps
      simp
    · have hne : ps.isEmpty = false := by
        simpa [List.isEmpty_iff] using hps
      rw [hne]
      simp only [Bool.false_eq_true, if_false]
      rw [merge_foldl_eq]
      simp
  · simp [Tracker._merge_positions, merge_foldl_eq, Position.visibility, Position.posn,
      Int.fdiv_one]

/-- A two-marker tracker state as it stands right after the merge phase:
both merged positions filled in, ready for `check_tracking`. -/
def mkTracker2 (m0 m1 : Marker) (p0 p1 : Position) : Tracker :=
  { markers := [m0, m1], naive := false, optical_flow := none, kalman := false,
    delta := 8, blobs := [], positions := [p0, p1],
    estimated_positions := [none, none] }

/-- C2 counterexample: two markers whose merged positions coincide at
(50, 50) with EQUAL displacements — previous positions (48, 50) and
(52, 50), both at distance 2 — resolve by reverting the LOWER index
marker 0 to (48, 50) while marker 1 keeps (50, 50); the claim predicts
the opposite ([(50,50), (52,50)]), so its tie-break direction is
false. -/
theorem C2_overlap_tie_counterexample :
    (mkTracker2 { pos := (48, 50), is_static := false, kalmanPred := (0, 0), corrections := [] }
        { pos := (52, 50), is_static := false, kalmanPred := (0, 0), corrections := [] }
        (Position.pt 50 50 true) (Position.pt 50 50 true)).check_tracking.positions =
      [Position.pt 48 50 true, Position.pt 50 50 true] ∧
    ¬ ((mkTracker2 { pos := (48, 50), is_static := false, kalmanPred := (0, 0), corrections := [] }
        { pos := (52, 50), is_static := false, kalmanPred := (0, 0), corrections := [] }
        (Position.pt 50 50 true) (Position.pt 50 50 true)).check_tracking.positions =
      [Position.pt 50 50 true, Position.pt 52 50 true]) := by
  decide

/-- C2 amended: for a pair of coordinate-equal non-empty merged
positions, the marker whose displacement from its own pre-tick stored
position is strictly larger is reverted to that stored position and the
other keeps the contested position; when the two displacements are
EQUAL, the lower index is reverted and the higher index keeps the
contested position.  The second conjunct is the spec's worked example:
previous positions (48, 49) and (10, 10) contesting (50, 50). -/
theorem C2_overlap_resolution_amended :
    (∀ (m0 m1 : Marker) (x y : Int) (v0 v1 : Bool),
      (mkTracker2 m0 m1 (Position.pt x y v0) (Position.pt x y v1)).check_tracking.positions =
        (if dist2 (x, y) m0.pos < dist2 (x, y) m1.pos
         then [Position.pt x y v0, Position.pt m1.pos.1 m1.pos.2 v1]
         else [Position.pt m0.pos.1 m0.pos.2 v0, Position.pt x y v1])) ∧
    (mkTracker2 { pos := (48, 49), is_static := false, kalmanPred := (0, 0), corrections := [] }
        { pos := (10, 10), is_static := false, kalmanPred := (0, 0), corrections := [] }
        (Position.pt 50 50 true) (Position.pt 50 50 true)).check_tracking.positions =
      [Position.pt 50 50 true, Position.pt 10 10 true] := by
  constructor
  · intro m0 m1 x y v0 v1
    by_cases hd : dist2 (x, y) m0.pos < dist2 (x, y) m1.pos <;>
      simp [Tracker.check_tracking, mkTracker2, Tracker._correct_overlapping,
        Position.distance_from_marker, Position.posn, Position.setPos, posEq,
        hd, List.range_succ, List.range']
  · decide

/-- The C5/C6 scenario tracker: one crop, one non-static marker stored
at (10, 10), only the naive estimator enabled, DELTA = 8, Kalman
strategy flag disabled. -/
def c5Tracker : Tracker := Tracker.init [marker10] true none false

/-- C5 counterexample: in the C5 scenario (marker at (10, 10), naive
only, DELTA = 8, blob list [(12, 11)], kalman flag disabled) a Kalman
correct step IS applied to the marker's filter — the final loop of
`track` corrects every marker with a non-empty merged position and is
not guarded by the kalman flag — so the claim's "no Kalman correct step
is applied" is false. -/
theorem C5_kalman_corrected_counterexample :
    ((c5Tracker.track ⟨100, 100⟩ [(12, 11)]).markers.getD 0 default).corrections =
      [(12, 11)] ∧
    ¬ (((c5Tracker.track ⟨100, 100⟩ [(12, 11)]).markers.getD 0 default).corrections = []) := by
  decide

/-- C5 amended: in the C5 scenario the returned position is (12, 11)
with visibility true, and the Kalman correct step IS applied to the
marker with measurement (12, 11): disabling the kalman flag only
disables the Kalman-prediction estimator, not the final correction that
`track` applies to every non-empty position. -/
theorem C5_naive_scenario_amended :
    (c5Tracker.track ⟨100, 100⟩ [(12, 11)]).positions = [Position.pt 12 11 true] ∧
    (c5Tracker.track ⟨100, 100⟩ [(12, 11)]).markers =
      [{ marker10 with corrections := [(12, 11)] }] := by
  decide

theorem set_marker_pos_getD (ms : List Marker) (ps : List Position) (i : Nat)
    (hl : ms.length = ps.length) :
    (List.zipWith (fun m p => if posEq p Position.empty then m
        else { m with pos := p.posn }) ms ps).getD i default =
      (if posEq (ps.getD i Position.empty) Position.empty then ms.getD i default
       else { ms.getD i default with pos := (ps.getD i Position.empty).posn }) := by
  induction ms generalizing ps i with
  | nil =>
      cases ps with
      | nil => simp [posEq]
      | cons p ps => simp at hl
  | cons m ms ih =>
      cases ps with
      | nil => simp at hl
      | cons p ps =>
          cases i with
          | zero => simp
          | succ i =>
              simp only [List.zipWith_cons_cons, List.getD_cons_succ]
              exact ih ps i (by simpa using hl)

/-- C6: a marker whose final merged position this tick is the Empty
sentinel is skipped by the Kalman correct loop, so the whole marker —
its abstract filter state included — is unchanged by `track`; the
write-back `set_marker_pos` also leaves such a marker's stored position
unchanged; and in particular the C5 marker with blob list [] yields the
sentinel, an unchanged marker, and an identity write-back. -/
theorem C6_empty_position_skips_correction :
    (∀ (t : Tracker) (frame : Frames) (blobs : List (Int × Int)) (i : Nat),
        i < t.markers.length →
        (t.track frame blobs).positions.getD i Position.empty = Position.empty →
        (t.track frame blobs).markers.getD i default = t.markers.getD i default) ∧
    (∀ (ms : List Marker) (ps : List Position) (i : Nat),
        ms.length = ps.length →
        ps.getD i Position.empty = Position.empty →
        Except.map (fun l => l.getD i default) (set_marker_pos ms ps) =
          Except.ok (ms.getD i default)) ∧
    ((c5Tracker.track ⟨100, 100⟩ []).positions = [Position.empty] ∧
     (c5Tracker.track ⟨100, 100⟩ []).markers = [marker10] ∧
     set_marker_pos (c5Tracker.track ⟨100, 100⟩ []).markers
       (c5Tracker.track ⟨100, 100⟩ []).positions = Except.ok [marker10]) := by
  refine ⟨?_, ?_, by decide, by decide, by rfl⟩
  · intro t frame blobs i hi hp
    have hm := trackPre_markers t frame blobs
    have hi' : i < (t.trackPre frame blobs).markers.length := by
      rw [hm]; exact hi
    have hp' : (t.trackPre frame blobs).positions.getD i Position.empty = Position.empty := hp
    have hk := kalmanPass_getD (t.trackPre frame blobs).positions
      (t.trackPre frame blobs).markers 0 i hi'
    rw [zero_add] at hk
    show (kalmanPass (t.trackPre frame blobs).positions
        (t.trackPre frame blobs).markers 0).getD i default = t.markers.getD i default
    rw [hk, hp', hm]
    simp [posEq]
  · intro ms ps i hl hp
    rw [set_marker_pos, if_pos hl]
    simp only [Except.map]
    rw [set_marker_pos_getD ms ps i hl, hp]
    simp [posEq]

/-- Witness for C6 at the concrete no-blob scenario. -/
theorem C6_empty_position_witness :
    (0 < c5Tracker.markers.length ∧
     (c5Tracker.track ⟨100, 100⟩ []).positions.getD 0 Position.empty = Position.empty ∧
     (c5Tracker.track ⟨100, 100⟩ []).markers.getD 0 default =
       c5Tracker.markers.getD 0 default) ∧
    (([marker10].length = [Position.empty].length) ∧
     [Position.empty].getD 0 Position.empty = Position.empty ∧
     Except.map (fun l => l.getD 0 default) (set_marker_pos [marker10] [Position.empty]) =
       Except.ok ([marker10].getD 0 default)) :=
  ⟨⟨by decide, by decide,
      C6_empty_position_skips_correction.1 c5Tracker ⟨100, 100⟩ [] 0 (by decide) (by decide)⟩,
   ⟨by decide, by decide,
      C6_empty_position_skips_correction.2.1 [marker10] [Position.empty] 0 (by decide)
        (by decide)⟩⟩

/-- C7 counterexample: with a loader that fails on every index, one
iteration of the `process` loop still performs a tracking dispatch
(`send_process` runs before the load in `_process_while_loading`), so
the claim's "no tracking dispatch occurs for that tick" is false; the
index still advances and the shared frame keeps its old images. -/
theorem C7_dispatch_on_failure_counterexample :
    (ProcessImage.process_step (fun _ => none)
        { index := 0, frames := (7, 7), dispatches := 0 }).2 =
      { index := 1, frames := (7, 7), dispatches := 1 } ∧
    ¬ ((ProcessImage.process_step (fun _ => none)
        { index := 0, frames := (7, 7), dispatches := 0 }).2.dispatches = 0) := by
  decide

/-- C7 amended: when the loader fails for the current index, the
pipelined path used by `process` skips only the frame update — the
iteration reports failure, the index still advances, the shared frame
keeps its previous images — but the tracking dispatch for that iteration
has already run (it precedes the load); only the unused
`_process_after_loading` variant skips the dispatch on a load
failure. -/
theorem C7_load_failure_amended :
    (∀ (load_img : Int → Option (Nat × Nat)) (s : PIState),
        load_img (s.index + 1) = none →
        ProcessImage.process_step load_img s =
          (false, { s with index := s.index + 1, dispatches := s.dispatches + 1 })) ∧
    (∀ (load_img : Int → Option (Nat × Nat)) (s : PIState),
        load_img s.index = none →
        ProcessImage._process_after_loading load_img s = (false, s)) := by
  constructor
  · intro load_img s h
    simp [ProcessImage.process_step, ProcessImage._process_while_loading,
      ImageProcessingHandler.send_process, ImageProcessingHandler._process_function,
      ImageProcessingHandler.receive_process, ProcessImage._update_img, h]
  · intro load_img s h
    simp [ProcessImage._process_after_loading, ProcessImage._update_img, h]

/-- Witness for C7 at a concrete failing loader and state. -/
theorem C7_load_failure_witness :
    (((fun _ => none : Int → Option (Nat × Nat)) ((0 : Int) + 1) = none) ∧
     ProcessImage.process_step (fun _ => none)
        { index := 0, frames := (7, 7), dispatches := 0 } =
       (false, { index := 1, frames := (7, 7), dispatches := 1 })) ∧
    (((fun _ => none : Int → Option (Nat × Nat)) (0 : Int) = none) ∧
     ProcessImage._process_after_loading (fun _ => none)
        { index := 0, frames := (7, 7), dispatches := 0 } =
       (false, { index := 0, frames := (7, 7), dispatches := 0 })) :=
  ⟨⟨rfl, C7_load_failure_amended.1 (fun _ => none)
      { index := 0, frames := (7, 7), dispatches := 0 } rfl⟩,
   ⟨rfl, C7_load_failure_amended.2 (fun _ => none)
      { index := 0, frames := (7, 7), dispatches := 0 } rfl⟩⟩

/-- C8: when the number of positions passed to `set_marker_pos`
disagrees with the marker count, the call aborts with the assertion
error before any marker is written (the model returns no marker list at
all); when the lengths agree, the call succeeds and each marker is
updated exactly when its position is non-empty, to that position's
coordinates. -/
theorem C8_set_marker_pos_fail_fast :
    (∀ (ms : List Marker) (ps : List Position),
        ms.length ≠ ps.length →
        set_marker_pos ms ps =
          Except.error "AssertionError: marker count differs from position count") ∧
    (∀ (ms : List Marker) (ps : List Position) (i : Nat),
        ms.length = ps.length →
        Except.map (fun l => l.getD i default) (set_marker_pos ms ps) =
          Except.ok (if (ps.getD i Position.empty) = Position.empty
                     then ms.getD i default
                     else { ms.getD i default with pos := (ps.getD i Position.empty).posn })) := by
  constructor
  · intro ms ps h
    rw [set_marker_pos, if_neg h]
  · intro ms ps i hl
    rw [set_marker_pos, if_pos hl]
    simp only [Except.map]
    rw [set_marker_pos_getD ms ps i hl]
    by_cases hp : ps.getD i Position.empty = Position.empty
    · rw [if_pos hp, if_pos ((posEq_empty_iff _).2 hp)]
    · rw [if_neg hp, if_neg (fun hc => hp ((posEq_empty_iff _).1 hc))]

/-- Witness for C8: a mismatched call errors, an aligned call updates
the single non-empty position. -/
theorem C8_set_marker_pos_witness :
    (([marker10].length ≠ ([] : List Position).length) ∧
     set_marker_pos [marker10] [] =
       Except.error "AssertionError: marker count differs from position count") ∧
    (([marker10].length = [Position.pt 3 4 true].length) ∧
     Except.map (fun l => l.getD 0 default) (set_marker_pos [marker10] [Position.pt 3 4 true]) =
       Except.ok (if ([Position.pt 3 4 true].getD 0 Position.empty) = Position.empty
                  then [marker10].getD 0 default
                  else { [marker10].getD 0 default with
                           pos := ([Position.pt 3 4 true].getD 0 Position.empty).posn })) :=
  ⟨⟨by decide, C8_set_marker_pos_fail_fast.1 [marker10] [] (by decide)⟩,
   ⟨by decide, C8_set_marker_pos_fail_fast.2 [marker10] [Position.pt 3 4 true] 0 (by decide)⟩⟩

/-- C9: for every order argument and state,
`ProcessHandler.send_and_receive_process` and
`ImageProcessingHandler.send_and_receive_process` have exactly the
effect of their `send_process` alone; `receive_process` and
`end_process` are identities; and the `_process_while_loading` path is
just the synchronous dispatch followed by the load and the frame
update — the whole per-crop tracking pass completes inside
`send_process`. -/
theorem C9_send_and_receive_is_send :
    (∀ (order : Nat) (s : PIState),
        ProcessHandler.send_and_receive_process order s = ProcessHandler.send_process order s) ∧
    (∀ (order : Nat) (s : PIState),
        ImageProcessingHandler.send_and_receive_process order s =
          ImageProcessingHandler.send_process order s) ∧
    (∀ (s : PIState), ImageProcessingHandler.receive_process s = s) ∧
    (∀ (s : PIState), ImageProcessingHandler.end_process s = s) ∧
    (∀ (load_img : Int → Option (Nat × Nat)) (s : PIState),
        ProcessImage._process_while_loading load_img s =
          ProcessImage._update_img (ImageProcessingHandler.send_process 1 s)
            (load_img s.index)) :=
  ⟨fun _ _ => rfl, fun _ _ => rfl, fun _ => rfl, fun _ => rfl, fun _ _ => rfl⟩

/-- C10: `get_markers_pos_in_meter` raises ValueError when both
`marker_pos_in_pixel` and `method` are None, and also raises ValueError
for every method equal to one of the two accessors its documentation
names as the valid choices, for any pixel argument. -/
theorem C10_get_markers_pos_in_meter_rejects_valid_methods :
    (∀ (call : RgbdMethod → Nat × Nat × Nat × Int) (deproject : Nat → Nat),
        CameraConverter.get_markers_pos_in_meter none none call deproject =
          Except.error "Cannot get markers position in meters: arguments are None") ∧
    (∀ (px : Option Nat) (m : RgbdMethod) (call : RgbdMethod → Nat × Nat × Nat × Int)
        (deproject : Nat → Nat),
        m = RgbdMethod.get_global_markers_pos ∨
          m = RgbdMethod.get_merged_global_markers_pos →
        CameraConverter.get_markers_pos_in_meter px (some m) call deproject =
          Except.error "Cannot get markers position in meters: method is not valid") := by
  constructor
  · intro call deproject
    rfl
  · intro px m call deproject hm
    rcases hm with hm | hm <;> subst hm <;> cases px <;> rfl

/-- Witness for C10: supplying the documented valid accessor
`get_global_markers_pos` with a pixel payload fails. -/
theorem C10_get_markers_pos_in_meter_witness :
    (RgbdMethod.get_global_markers_pos = RgbdMethod.get_global_markers_pos ∨
      RgbdMethod.get_global_markers_pos = RgbdMethod.get_merged_global_markers_pos) ∧
    CameraConverter.get_markers_pos_in_meter (some 3)
        (some RgbdMethod.get_global_markers_pos) (fun _ => (0, 0, 0, 0)) id =
      Except.error "Cannot get markers position in meters: method is not valid" :=
  ⟨Or.inl rfl,
   C10_get_markers_pos_in_meter_rejects_valid_methods.2 (some 3)
     RgbdMethod.get_global_markers_pos (fun _ => (0, 0, 0, 0)) id (Or.inl rfl)⟩
